import Mathlib

/-!
Shallow embedding of the WebRTC negotiation subsystem of this repository:
the per-peer NegotiationClient state machine (the WebRTC session page in
`webapp/next.config.js`, which drives media acquisition, offer creation,
candidate buffering/flushing, answer polling and reset), and the
SignalingStore `SubmitAnswer` operation (server side; modelled from the
spec, since only its HTTP client wrapper `submitWebRTCAnswer` in
`webapp/lib/api.ts` is present in the sources).

Machine-level effects (HTTP calls issued, remote description applied,
media released) are made explicit as `Action` values returned alongside
the successor state, so that buffering order, exactly-once application
and resource release are provable statements about traces.
-/

namespace RBOK

/-- `ConnectionStatus` union type of `next.config.js` (lines 36-43). -/
inductive ConnectionStatus where
  | idle
  | requestingMedia
  | creatingOffer
  | waitingAnswer
  | answered
  | closed
  | error
  deriving DecidableEq, Repr

/-- Client view of a session resource, from `WebRTCSession` in
`webapp/lib/api.ts` (lines 14-26).  The opaque metadata bags,
candidate log and timestamps are never read by the client state machine
and are omitted here. -/
structure WebRTCSession where
  id : String
  client_id : String
  responder_id : Option String
  status : String
  offer_sdp : String
  answer_sdp : Option String
  deriving DecidableEq, Repr

/-- Observable effects of a client step: HTTP calls issued to the
signaling API and commands handed to the local media engine. -/
inductive Action where
  | createSession (clientId offerSdp : String)
  | submitCandidate (sessionId : String) (candidate : String)
  | applyRemoteDescription (sdp : String)
  deriving DecidableEq, Repr

/-- Errors a client-to-server call can fail with, from the error
taxonomy of the HTTP surface: 404 on unknown id, transient transport
failure, anything else.  The poll loop's catch clause (lines 154-159)
does not inspect the kind. -/
inductive NetError where
  | notFound
  | networkFailure
  | other
  deriving DecidableEq, Repr

/-- The mutable refs and React state of the `WebRTCSessionPage`
component (lines 72-84), collected into one record:
`connectionStatus`/`errorMessage`/`session` are React state,
`sessionIdRef`/`pendingCandidates`/`polling` are refs,
`peerOpen` stands for `peerConnectionRef.current` being non-null,
`peerRemoteDescription` for its `currentRemoteDescription`, and
`liveTracks` for the not-yet-stopped tracks of `localStreamRef`. -/
structure ClientState where
  connectionStatus : ConnectionStatus
  errorMessage : Option String
  session : Option WebRTCSession
  sessionIdRef : Option String
  pendingCandidates : List String
  peerRemoteDescription : Option String
  peerOpen : Bool
  liveTracks : List Nat
  polling : Bool
  deriving DecidableEq, Repr

/-- `stopPolling` (lines 86-91): clear the interval timer. -/
def stopPolling (s : ClientState) : ClientState :=
  { s with polling := false }

/-- `resetState` (lines 93-104): stop polling, close the peer
connection, stop every local track, clear the session, the session id
ref and the pending-candidate buffer, set status `idle`, clear the
error message. -/
def resetState (_s : ClientState) : ClientState :=
  { connectionStatus := .idle
    errorMessage := none
    session := none
    sessionIdRef := none
    pendingCandidates := []
    peerRemoteDescription := none
    peerOpen := false
    liveTracks := []
    polling := false }

/-- `closeSession` (lines 250-252) just calls `resetState`. -/
def closeSession (s : ClientState) : ClientState :=
  resetState s

/-- The error message set by the poll loop's catch clause (line 156). -/
def pollFailureMsg : String := "Impossible de r\xe9cup\xe9rer la session."

/-- One run of the `setInterval` callback of `pollForAnswer`
(lines 133-159), applied to the result of the awaited
`getWebRTCSession` call.  On success: store the refreshed session and
its id; if `answer_sdp` is truthy (non-null, non-empty) and the peer
connection exists and has no remote description yet, apply the answer
and move to `answered`; if the refreshed status is `closed`, move to
`closed` and stop polling.  On any failure: set the error message, move
to `error` and stop polling. -/
def pollTick (s : ClientState) (result : Except NetError WebRTCSession) :
    ClientState × List Action :=
  match result with
  | .ok refreshed =>
    let s1 : ClientState :=
      { s with session := some refreshed, sessionIdRef := some refreshed.id }
    let step2 : ClientState × List Action :=
      match refreshed.answer_sdp with
      | some sdp =>
        if sdp ≠ "" ∧ s1.peerOpen then
          if s1.peerRemoteDescription = none then
            ({ s1 with peerRemoteDescription := some sdp
                       connectionStatus := .answered },
             [Action.applyRemoteDescription sdp])
          else (s1, [])
        else (s1, [])
      | none => (s1, [])
    if refreshed.status = "closed" then
      ({ step2.1 with connectionStatus := .closed, polling := false }, step2.2)
    else step2
  | .error _ =>
    ({ s with errorMessage := some pollFailureMsg
              connectionStatus := .error
              polling := false }, [])

/-- The `peer.onicecandidate` handler (lines 200-212).  The argument is
the event's `candidate` field; `none` is the end-of-candidates marker
and is ignored.  A real candidate is submitted at once when the session
id is known, and pushed onto the pending buffer otherwise. -/
def onIceCandidate (s : ClientState) (event : Option String) :
    ClientState × List Action :=
  match event with
  | none => (s, [])
  | some c =>
    match s.sessionIdRef with
    | some sid => (s, [Action.submitCandidate sid c])
    | none => ({ s with pendingCandidates := s.pendingCandidates ++ [c] }, [])

/-- The success tail of `startSession` after `createWebRTCSession`
returns (lines 233-242): store the created session and its id, move to
`waiting-answer`, flush the pending-candidate buffer in FIFO order,
clear it, and start polling. -/
def applyCreated (s : ClientState) (created : WebRTCSession) :
    ClientState × List Action :=
  let s1 : ClientState :=
    { s with session := some created
             sessionIdRef := some created.id
             connectionStatus := .waitingAnswer }
  let flushActs := s1.pendingCandidates.map (Action.submitCandidate created.id)
  ({ s1 with pendingCandidates := [], polling := true }, flushActs)

/-- The error message set when media acquisition fails (line 190). -/
def mediaDeniedMsg : String := "Acc\xe8s cam\xe9ra/micro refus\xe9."

/-- The error message set when offer creation or session creation
fails (line 245). -/
def negotiationFailedMsg : String := "Impossible de cr\xe9er l\x27offre WebRTC."

/-- `startSession` (lines 173-248), with its awaited external results
made explicit: `mediaResult` for `getUserMedia`, `offerResult` for
`createOffer`/`setLocalDescription`, `createResult` for the
`createWebRTCSession` HTTP call.  Guarded to do nothing unless the
status is `idle`; on media failure it moves to `error` before any
session-creation call is issued; offer/create failures share one catch
clause. -/
def startSession (s : ClientState) (clientId : String)
    (mediaResult : Except Unit (List Nat))
    (offerResult : Except Unit String)
    (createResult : Except NetError WebRTCSession) :
    ClientState × List Action :=
  if s.connectionStatus ≠ .idle then (s, [])
  else
    let s1 : ClientState :=
      { s with errorMessage := none, connectionStatus := .requestingMedia }
    match mediaResult with
    | .error _ =>
      ({ s1 with errorMessage := some mediaDeniedMsg
                 connectionStatus := .error }, [])
    | .ok tracks =>
      let s2 : ClientState :=
        { s1 with liveTracks := tracks
                  connectionStatus := .creatingOffer
                  peerOpen := true
                  peerRemoteDescription := none }
      match offerResult with
      | .error _ =>
        ({ s2 with errorMessage := some negotiationFailedMsg
                   connectionStatus := .error }, [])
      | .ok offerSdp =>
        match createResult with
        | .error _ =>
          ({ s2 with errorMessage := some negotiationFailedMsg
                     connectionStatus := .error },
           [Action.createSession clientId offerSdp])
        | .ok created =>
          let (s3, flushActs) := applyCreated s2 created
          (s3, Action.createSession clientId offerSdp :: flushActs)

/-- Events driving the candidate-buffering part of the client: a
candidate event fired by the media engine, or the completion of session
creation. -/
inductive NegEvent where
  | iceCandidate (c : Option String)
  | sessionCreated (created : WebRTCSession)
  deriving DecidableEq, Repr

/-- Dispatch one event to the corresponding handler. -/
def stepEvent (s : ClientState) (e : NegEvent) : ClientState × List Action :=
  match e with
  | .iceCandidate c => onIceCandidate s c
  | .sessionCreated created => applyCreated s created

/-- Run a list of events, concatenating the actions each step emits. -/
def runEvents (s : ClientState) : List NegEvent → ClientState × List Action
  | [] => (s, [])
  | e :: es =>
    let (s1, a1) := stepEvent s e
    let (s2, a2) := runEvents s1 es
    (s2, a1 ++ a2)

/-- Run a list of poll results through `pollTick`, concatenating the
actions each tick emits. -/
def runPolls (s : ClientState) :
    List (Except NetError WebRTCSession) → ClientState × List Action
  | [] => (s, [])
  | r :: rs =>
    let (s1, a1) := pollTick s r
    let (s2, a2) := runPolls s1 rs
    (s2, a1 ++ a2)

/-- Session status enum of the signaling store (spec data model). -/
inductive SessionStatus where
  | pending
  | answered
  | closed
  deriving DecidableEq, Repr

/-- Errors of the signaling store's error taxonomy relevant to
`SubmitAnswer`. -/
inductive SigError where
  | notFound
  | conflict
  | invalidArgument
  deriving DecidableEq, Repr

/-- Server-side session record: id, initiating client, responder (null
until an answer is submitted), status, the two descriptions, the
responder's opaque metadata bag and the update timestamp. -/
structure ServerSession where
  id : String
  client_id : String
  responder_id : Option String
  status : SessionStatus
  offer_sdp : String
  answer_sdp : Option String
  responder_metadata : List (String × String)
  updated_at : Nat
  deriving DecidableEq, Repr

/-- Modelled from the spec: the SignalingStore `SubmitAnswer` operation
is not among the sources — only its HTTP client wrapper
`submitWebRTCAnswer` (webapp/lib/api.ts, lines 79-88) and that
wrapper's tests are.  Per the spec (section 4.1), on a session already
holding an answer it fails with `Conflict` if `answer_sdp` is set to a
different value and is a no-op success if resubmitted with an identical
answer; otherwise it sets `answer_sdp`, `responder_id`,
`responder_metadata`, transitions status to `answered` and advances
`updated_at`.  (`NotFound` for an unknown id lives at the store-lookup
level, above this per-session operation.) -/
def submitAnswer (s : ServerSession) (responderId answerSdp : String)
    (responderMeta : List (String × String)) (now : Nat) :
    Except SigError ServerSession :=
  match s.answer_sdp with
  | some existing =>
    if existing = answerSdp then .ok s
    else .error .conflict
  | none =>
    .ok { s with answer_sdp := some answerSdp
                 responder_id := some responderId
                 responder_metadata := responderMeta
                 status := .answered
                 updated_at := now }

/-- One `SubmitAnswer` request: responder id, answer, metadata, and the
clock value at processing time. -/
structure AnswerCall where
  responderId : String
  answerSdp : String
  meta : List (String × String)
  now : Nat
  deriving DecidableEq, Repr

/-- Apply a sequence of `SubmitAnswer` calls to a session; a rejected
call leaves the session unchanged. -/
def applyAnswerCalls (s : ServerSession) : List AnswerCall → ServerSession
  | [] => s
  | c :: cs =>
    match submitAnswer s c.responderId c.answerSdp c.meta c.now with
    | .ok s1 => applyAnswerCalls s1 cs
    | .error _ => applyAnswerCalls s cs

/-- `POLL_INTERVAL_MS` constant of `next.config.js` (line 34). -/
def POLL_INTERVAL_MS : Nat := 2500

/-- Firing times of the `setInterval` timer installed by
`pollForAnswer` (line 133): tick `n` fires `(n+1) * POLL_INTERVAL_MS`
milliseconds after scheduling.  `setInterval` fires on this fixed
schedule whether or not the asynchronous callback started at an earlier
tick has completed. -/
def tickTime (n : Nat) : Nat := (n + 1) * POLL_INTERVAL_MS

/-- The `getWebRTCSession` call issued at tick `n`, taking `d`
milliseconds to complete, is in flight at time `t`. -/
def pollInFlight (d n t : Nat) : Prop :=
  tickTime n ≤ t ∧ t < tickTime n + d

instance (d n t : Nat) : Decidable (pollInFlight d n t) := by
  unfold pollInFlight; exact inferInstance

/-- A concrete freshly created session resource, as returned by the
create-session endpoint. -/
def sampleCreated : WebRTCSession :=
  { id := "s1"
    client_id := "c1"
    responder_id := none
    status := "pending"
    offer_sdp := "O1"
    answer_sdp := none }

/-- The same session after a responder submitted answer `A1`. -/
def sampleAnswer : WebRTCSession :=
  { sampleCreated with
      status := "answered"
      responder_id := some "r1"
      answer_sdp := some "A1" }

/-- A concrete client state as first rendered: everything empty,
status `idle`. -/
def sampleIdle : ClientState :=
  { connectionStatus := .idle
    errorMessage := none
    session := none
    sessionIdRef := none
    pendingCandidates := []
    peerRemoteDescription := none
    peerOpen := false
    liveTracks := []
    polling := false }

/-- A concrete client state in `waiting-answer`: session created, peer
connection open with no remote description, two live local tracks,
polling active. -/
def sampleWaiting : ClientState :=
  { connectionStatus := .waitingAnswer
    errorMessage := none
    session := some sampleCreated
    sessionIdRef := some "s1"
    pendingCandidates := []
    peerRemoteDescription := none
    peerOpen := true
    liveTracks := [0, 1]
    polling := true }

/-- A concrete server-side session already holding answer `A1`. -/
def sampleAnswered : ServerSession :=
  { id := "s1"
    client_id := "c1"
    responder_id := some "r1"
    status := .answered
    offer_sdp := "O1"
    answer_sdp := some "A1"
    responder_metadata := []
    updated_at := 1 }

/-! ### Helper lemmas -/

/-- Once a server session holds answer `a`, no sequence of further
`SubmitAnswer` calls changes it. -/
theorem applyAnswerCalls_preserves_answer (a : String) :
    ∀ (calls : List AnswerCall) (s : ServerSession),
      s.answer_sdp = some a → (applyAnswerCalls s calls).answer_sdp = some a := by
  intro calls
  induction calls with
  | nil => intro s h; exact h
  | cons c cs ih =>
    intro s h
    by_cases hc : a = c.answerSdp
    · simp only [applyAnswerCalls, submitAnswer, h]
      rw [if_pos hc]
      exact ih s h
    · simp only [applyAnswerCalls, submitAnswer, h]
      rw [if_neg hc]
      exact ih s h

/-- A poll observing an already-stored session whose answer has already
been applied changes nothing and emits nothing. -/
theorem pollTick_fixed (s : ClientState) (sess : WebRTCSession) (a : String)
    (h1 : s.session = some sess) (h2 : s.sessionIdRef = some sess.id)
    (h3 : s.peerRemoteDescription = some a) (hans : sess.answer_sdp = some a)
    (hst : sess.status ≠ "closed") :
    pollTick s (.ok sess) = (s, []) := by
  obtain ⟨cs, em, se, sid, pc, prd, po, lt, pl⟩ := s
  simp only at h1 h2 h3
  subst h1 h2 h3
  simp [pollTick, hans, hst]

/-- Iterating a poll result that is a fixed point changes nothing. -/
theorem runPolls_fixed (s : ClientState) (r : Except NetError WebRTCSession)
    (h : pollTick s r = (s, [])) (n : Nat) :
    runPolls s (List.replicate n r) = (s, []) := by
  induction n with
  | zero => rfl
  | succ k ih => simp [List.replicate, runPolls, h, ih]

/-- Candidate events arriving while no session id is known only grow
the pending buffer, in discovery order; nothing is submitted and the
session id stays unknown. -/
theorem runEvents_buffer (pre : List (Option String)) :
    ∀ (s : ClientState), s.sessionIdRef = none →
      runEvents s (pre.map NegEvent.iceCandidate)
        = ({ s with pendingCandidates :=
               s.pendingCandidates ++ pre.filterMap id }, []) := by
  induction pre with
  | nil => intro s _; simp [runEvents]
  | cons c cs ih =>
    intro s h
    obtain ⟨c0, em, se, sid, pc, prd, po, lt, pl⟩ := s
    simp only at h
    subst h
    cases c with
    | none =>
      simp only [List.map, runEvents, stepEvent, onIceCandidate]
      rw [ih _ rfl]
      simp
    | some v =>
      simp only [List.map, runEvents, stepEvent, onIceCandidate]
      rw [ih _ rfl]
      simp

/-! ### Claims -/

/-- C1: for every session, `answer_sdp` is write-once.  A
`SubmitAnswer` with an identical answer to the one already set returns
success and leaves the session unchanged; one with a different answer
returns `Conflict`; hence across any sequence of `SubmitAnswer` calls
the answer, once set, never changes. -/
theorem answer_sdp_write_once (s : ServerSession) (a : String)
    (h : s.answer_sdp = some a) :
    (∀ rid m now, submitAnswer s rid a m now = .ok s)
    ∧ (∀ rid b m now, b ≠ a → submitAnswer s rid b m now = .error .conflict)
    ∧ (∀ calls, (applyAnswerCalls s calls).answer_sdp = some a) := by
  refine ⟨?_, ?_, ?_⟩
  · intro rid m now
    simp only [submitAnswer, h]
    rw [if_pos trivial]
  · intro rid b m now hb
    simp only [submitAnswer, h]
    rw [if_neg (Ne.symm hb)]
  · intro calls
    exact applyAnswerCalls_preserves_answer a calls s h

/-- Witness for C1 at a concrete session holding answer `A1`. -/
theorem answer_sdp_write_once_witness :
    sampleAnswered.answer_sdp = some "A1"
    ∧ submitAnswer sampleAnswered "r2" "A1" [] 5 = .ok sampleAnswered
    ∧ submitAnswer sampleAnswered "r2" "A2" [] 5 = .error .conflict
    ∧ (applyAnswerCalls sampleAnswered
        [⟨"r2", "A2", [], 5⟩, ⟨"r3", "A1", [], 6⟩]).answer_sdp = some "A1" :=
  ⟨rfl,
   (answer_sdp_write_once sampleAnswered "A1" rfl).1 "r2" [] 5,
   (answer_sdp_write_once sampleAnswered "A1" rfl).2.1 "r2" "A2" [] 5 (by decide),
   (answer_sdp_write_once sampleAnswered "A1" rfl).2.2
     [⟨"r2", "A2", [], 5⟩, ⟨"r3", "A1", [], 6⟩]⟩

/-- C2: when a poll observes a non-null answer and the peer has no
remote description yet, the answer is applied exactly once (the one
`applyRemoteDescription` action of the first such tick) and the client
moves to `answered`; any number of subsequent polls observing the same
answer change nothing and reapply nothing; polling stays active after
the transition and stops only when a later poll observes `closed`. -/
theorem answer_applied_exactly_once (s0 : ClientState) (sess : WebRTCSession)
    (a : String) (n : Nat)
    (hopen : s0.peerOpen = true) (hnr : s0.peerRemoteDescription = none)
    (hpoll : s0.polling = true)
    (hans : sess.answer_sdp = some a) (ha : a ≠ "")
    (hst : sess.status ≠ "closed") :
    (pollTick s0 (.ok sess)).2 = [Action.applyRemoteDescription a]
    ∧ (pollTick s0 (.ok sess)).1.connectionStatus = .answered
    ∧ (pollTick s0 (.ok sess)).1.polling = true
    ∧ runPolls (pollTick s0 (.ok sess)).1 (List.replicate n (.ok sess))
        = ((pollTick s0 (.ok sess)).1, [])
    ∧ (pollTick (pollTick s0 (.ok sess)).1
          (.ok { sess with status := "closed" })).1.connectionStatus = .closed
    ∧ (pollTick (pollTick s0 (.ok sess)).1
          (.ok { sess with status := "closed" })).1.polling = false := by
  obtain ⟨c0, em, se, sid, pc, prd, po, lt, pl⟩ := s0
  simp only at hopen hnr hpoll
  subst hopen hnr hpoll
  have happlied :
      pollTick ⟨c0, em, se, sid, pc, none, true, lt, true⟩ (.ok sess)
        = (⟨.answered, em, some sess, some sess.id, pc, some a, true, lt, true⟩,
           [Action.applyRemoteDescription a]) := by
    simp [pollTick, hans, ha, hst]
  refine ⟨by rw [happlied], by rw [happlied], by rw [happlied], ?_, ?_, ?_⟩
  · rw [happlied]
    exact runPolls_fixed _ _ (pollTick_fixed _ sess a rfl rfl rfl hans hst) n
  · rw [happlied]
    simp [pollTick, hans, ha]
  · rw [happlied]
    simp [pollTick, hans, ha]

/-- Witness for C2: the end-to-end scenario at concrete inputs —
answer `A1` observed in `waiting-answer`, applied once, three further
polls observing the same answer change nothing. -/
theorem answer_applied_exactly_once_witness :
    sampleWaiting.peerOpen = true
    ∧ sampleWaiting.peerRemoteDescription = none
    ∧ sampleWaiting.polling = true
    ∧ sampleAnswer.answer_sdp = some "A1"
    ∧ ("A1" : String) ≠ ""
    ∧ sampleAnswer.status ≠ "closed"
    ∧ ((pollTick sampleWaiting (.ok sampleAnswer)).2
          = [Action.applyRemoteDescription "A1"]
       ∧ (pollTick sampleWaiting (.ok sampleAnswer)).1.connectionStatus
          = .answered
       ∧ (pollTick sampleWaiting (.ok sampleAnswer)).1.polling = true
       ∧ runPolls (pollTick sampleWaiting (.ok sampleAnswer)).1
            (List.replicate 3 (.ok sampleAnswer))
          = ((pollTick sampleWaiting (.ok sampleAnswer)).1, [])
       ∧ (pollTick (pollTick sampleWaiting (.ok sampleAnswer)).1
            (.ok { sampleAnswer with status := "closed" })).1.connectionStatus
          = .closed
       ∧ (pollTick (pollTick sampleWaiting (.ok sampleAnswer)).1
            (.ok { sampleAnswer with status := "closed" })).1.polling
          = false) :=
  ⟨rfl, rfl, rfl, rfl, by decide, by decide,
   answer_applied_exactly_once sampleWaiting sampleAnswer "A1" 3
     rfl rfl rfl rfl (by decide) (by decide)⟩

/-- C3: candidates discovered while the session id is unknown are
queued; the session-creation step flushes the queue by submitting, in
FIFO order, exactly the candidates discovered before creation (null
markers excluded, nothing dropped), leaving the buffer empty; every
candidate discovered afterwards is submitted immediately. -/
theorem candidates_flushed_in_order (s0 : ClientState)
    (pre : List (Option String)) (created : WebRTCSession)
    (h1 : s0.sessionIdRef = none) (h2 : s0.pendingCandidates = []) :
    (applyCreated (runEvents s0 (pre.map NegEvent.iceCandidate)).1 created).2
      = (pre.filterMap id).map (Action.submitCandidate created.id)
    ∧ (applyCreated (runEvents s0 (pre.map NegEvent.iceCandidate)).1
         created).1.sessionIdRef = some created.id
    ∧ (applyCreated (runEvents s0 (pre.map NegEvent.iceCandidate)).1
         created).1.pendingCandidates = []
    ∧ ∀ c, onIceCandidate
          (applyCreated (runEvents s0 (pre.map NegEvent.iceCandidate)).1
            created).1 (some c)
        = ((applyCreated (runEvents s0 (pre.map NegEvent.iceCandidate)).1
             created).1,
           [Action.submitCandidate created.id c]) := by
  rw [runEvents_buffer pre s0 h1, h2]
  refine ⟨?_, rfl, rfl, ?_⟩
  · simp [applyCreated]
  · intro c
    rfl

/-- Witness for C3: three discovery events (`c1`, an end-of-candidates
marker, `c2`) before creation flush as exactly `c1, c2` in order. -/
theorem candidates_flushed_in_order_witness :
    sampleIdle.sessionIdRef = none
    ∧ sampleIdle.pendingCandidates = []
    ∧ ((applyCreated (runEvents sampleIdle
           ([some "c1", none, some "c2"].map NegEvent.iceCandidate)).1
           sampleCreated).2
        = ([some "c1", none, some "c2"].filterMap id).map
            (Action.submitCandidate sampleCreated.id)
       ∧ (applyCreated (runEvents sampleIdle
            ([some "c1", none, some "c2"].map NegEvent.iceCandidate)).1
            sampleCreated).1.sessionIdRef = some sampleCreated.id
       ∧ (applyCreated (runEvents sampleIdle
            ([some "c1", none, some "c2"].map NegEvent.iceCandidate)).1
            sampleCreated).1.pendingCandidates = []
       ∧ ∀ c, onIceCandidate
             (applyCreated (runEvents sampleIdle
               ([some "c1", none, some "c2"].map NegEvent.iceCandidate)).1
               sampleCreated).1 (some c)
           = ((applyCreated (runEvents sampleIdle
                ([some "c1", none, some "c2"].map NegEvent.iceCandidate)).1
                sampleCreated).1,
              [Action.submitCandidate sampleCreated.id c])) :=
  ⟨rfl, rfl,
   candidates_flushed_in_order sampleIdle [some "c1", none, some "c2"]
     sampleCreated rfl rfl⟩

/-- C4: evaluating the poll continuation at the failing input.  After
an explicit reset clears the session, the session id and the status,
the continuation of a `getWebRTCSession` call that was in flight when
the reset happened still stores the stale session and its id back into
the state (and a stale `closed` status even moves the status), instead
of being ignored. -/
theorem stale_poll_resurrects_after_reset :
    (resetState sampleWaiting).session = none
    ∧ (resetState sampleWaiting).sessionIdRef = none
    ∧ (resetState sampleWaiting).connectionStatus = .idle
    ∧ (pollTick (resetState sampleWaiting) (.ok sampleCreated)).1.session
        = some sampleCreated
    ∧ (pollTick (resetState sampleWaiting) (.ok sampleCreated)).1.sessionIdRef
        = some "s1"
    ∧ (pollTick (resetState sampleWaiting)
         (.ok { sampleCreated with status := "closed" })).1.connectionStatus
        = .closed := by
  refine ⟨rfl, rfl, rfl, ?_, ?_, ?_⟩ <;> decide

/-- C9 counterexample: with the fixed `setInterval` schedule, a
`getWebRTCSession` call lasting 6000 ms means the polls issued at ticks
0 and 1 are both in flight at t = 5000 ms — two concurrent polls. -/
theorem overlapping_polls_cex :
    pollInFlight 6000 0 5000 ∧ pollInFlight 6000 1 5000 ∧ (0 : Nat) ≠ 1 := by
  decide

/-- C9 (amended): ticks fire on the fixed 2500 ms `setInterval`
schedule whether or not the prior call completed; at most one poll is
in flight at any instant provided every call completes within the
interval. -/
theorem at_most_one_poll_in_flight_when_fast (d n m t : Nat)
    (hd : d ≤ POLL_INTERVAL_MS)
    (h1 : pollInFlight d n t) (h2 : pollInFlight d m t) : n = m := by
  unfold pollInFlight tickTime POLL_INTERVAL_MS at *
  omega

/-- Witness for C9 (amended), at a call lasting the full interval. -/
theorem at_most_one_poll_in_flight_when_fast_witness :
    2500 ≤ POLL_INTERVAL_MS ∧ pollInFlight 2500 0 2600
    ∧ (0 : Nat) = 0 :=
  ⟨by decide, by decide,
   at_most_one_poll_in_flight_when_fast 2500 0 0 2600 (by decide) (by decide)
     (by decide)⟩

/-- C5 counterexample: an explicit close from `waiting-answer` leaves
the client in status `idle`, which is not the `closed` outcome (nor
`answered` nor `error`). -/
theorem close_lands_in_idle_cex :
    (closeSession sampleWaiting).connectionStatus = .idle
    ∧ ConnectionStatus.idle ≠ ConnectionStatus.closed
    ∧ ConnectionStatus.idle ≠ ConnectionStatus.answered
    ∧ ConnectionStatus.idle ≠ ConnectionStatus.error := by
  refine ⟨rfl, by decide, by decide, by decide⟩

/-- C5 (amended): an explicit local close/reset call stops polling and
releases local media resources — every local track stopped, the peer
connection closed — and returns the client to the `idle` state (not the
`closed` outcome). -/
theorem close_stops_polling_and_releases_media (s : ClientState) :
    (closeSession s).polling = false
    ∧ (closeSession s).liveTracks = []
    ∧ (closeSession s).peerOpen = false
    ∧ (closeSession s).connectionStatus = .idle :=
  ⟨rfl, rfl, rfl, rfl⟩

/-- C6 counterexample: a transient `NetworkFailure` on a poll from a
concrete `waiting-answer` state stops polling and lands in `error` —
the client does not keep polling. -/
theorem network_failure_stops_polling_cex :
    (pollTick sampleWaiting (.error .networkFailure)).1.polling = false
    ∧ (pollTick sampleWaiting (.error .networkFailure)).1.connectionStatus
        = .error :=
  ⟨rfl, rfl⟩

/-- C6 (amended): when a `GetSession` poll fails — for any reason,
including a transient `NetworkFailure` — the client does not retry: it
records a cause, transitions to `error` and stops polling. -/
theorem poll_failure_is_terminal (s : ClientState) (e : NetError) :
    pollTick s (.error e)
      = ({ s with errorMessage := some pollFailureMsg
                  connectionStatus := .error
                  polling := false }, []) := rfl

/-- C7: a `NotFound` on a poll transitions the client to `error` with a
human-readable cause attached and stops polling; local media resources
are not leaked — they are left held (release on error is deliberately a
separate explicit action) and the explicit reset releases them all. -/
theorem notfound_poll_errors_without_leak (s : ClientState) :
    (pollTick s (.error .notFound)).1.connectionStatus = .error
    ∧ (pollTick s (.error .notFound)).1.errorMessage = some pollFailureMsg
    ∧ (pollTick s (.error .notFound)).1.polling = false
    ∧ (pollTick s (.error .notFound)).2 = []
    ∧ (pollTick s (.error .notFound)).1.liveTracks = s.liveTracks
    ∧ (resetState (pollTick s (.error .notFound)).1).liveTracks = []
    ∧ (resetState (pollTick s (.error .notFound)).1).peerOpen = false :=
  ⟨rfl, rfl, rfl, rfl, rfl, rfl, rfl⟩

/-- C8: when local media acquisition fails during start from `idle`,
the client transitions to `error` with the descriptive media cause, and
no call at all — in particular no `CreateSession` — is issued in that
run. -/
theorem media_failure_creates_no_session (s : ClientState) (clientId : String)
    (offerResult : Except Unit String)
    (createResult : Except NetError WebRTCSession)
    (h : s.connectionStatus = .idle) :
    (startSession s clientId (.error ()) offerResult createResult).1.connectionStatus
        = .error
    ∧ (startSession s clientId (.error ()) offerResult createResult).1.errorMessage
        = some mediaDeniedMsg
    ∧ (startSession s clientId (.error ()) offerResult createResult).2 = [] := by
  simp [startSession, h]

/-- Witness for C8 at the concrete idle state. -/
theorem media_failure_creates_no_session_witness :
    sampleIdle.connectionStatus = .idle
    ∧ ((startSession sampleIdle "c1" (.error ()) (.ok "O1")
          (.ok sampleCreated)).1.connectionStatus = .error
       ∧ (startSession sampleIdle "c1" (.error ()) (.ok "O1")
            (.ok sampleCreated)).1.errorMessage = some mediaDeniedMsg
       ∧ (startSession sampleIdle "c1" (.error ()) (.ok "O1")
            (.ok sampleCreated)).2 = []) :=
  ⟨rfl, media_failure_creates_no_session sampleIdle "c1" (.ok "O1")
          (.ok sampleCreated) rfl⟩

/-- C10: an ICE-candidate event whose candidate field is null (the
end-of-candidates marker) submits nothing, buffers nothing, and leaves
the client state unchanged. -/
theorem null_candidate_event_is_noop (s : ClientState) :
    onIceCandidate s none = (s, []) := rfl

end RBOK
